import Mathlib

set_option autoImplicit false
set_option maxRecDepth 10000

/-!
Shallow embedding of the natnet-client protocol engine
(src/natnet_client/Client.py and src/new_natnet_client/NatNetTypes.py).

Bytes are modelled as natural numbers in [0, 256); Python `bytes` values
are `List Nat`.  Python exceptions are modelled with `Except` (or an
explicit error component).  The two unpacker classes `DataUnpackerV3_0`
and `DataUnpackerV4_1` (module `Unpackers`, external to the sources
embedded here) appear only as the tag `UnpackerVersion` plus an abstract
`CodecOracle` standing for their decode entry points.
-/

namespace NatNet

/-- `int.from_bytes(bs, byteorder='little', signed=False)`. -/
def bytesToNatLE : List Nat → Nat
  | [] => 0
  | b :: bs => b + 256 * bytesToNatLE bs

/-- `int.from_bytes(bs, byteorder='little', signed=True)` (for any length,
including the empty byte string, which yields 0). -/
def intFromBytesLE (bs : List Nat) : Int :=
  if bytesToNatLE bs < 2 ^ (8 * bs.length - 1) then (bytesToNatLE bs : Int)
  else (bytesToNatLE bs : Int) - 2 ^ (8 * bs.length)

/-- `v.to_bytes(2, byteorder='little', signed=True)`, for v in
[-2^15, 2^15) (the only range the client ever encodes). -/
def intToBytes2LE (v : Int) : List Nat :=
  [(v % 65536).toNat % 256, (v % 65536).toNat / 256]

/-- First component of `bs.partition(b'\x00')`: everything before the
first null byte (the whole string when no null is present). -/
def beforeNull (bs : List Nat) : List Nat :=
  bs.takeWhile (fun b => b ≠ 0)

/-- Enum `NAT_Messages` (src/new_natnet_client/NatNetTypes.py, lines 21-39). -/
inductive NAT_Messages
  | CONNECT
  | SERVER_INFO
  | REQUEST
  | RESPONSE
  | REQUEST_MODEL_DEF
  | MODEL_DEF
  | REQUEST_FRAME_OF_DATA
  | FRAME_OF_DATA
  | MESSAGE_STRING
  | DISCONNECT
  | KEEP_ALIVE
  | UNRECOGNIZED_REQUEST
  | UNDEFINED
  deriving DecidableEq

/-- The numeric wire ids of `NAT_Messages`. -/
def NAT_Messages.value : NAT_Messages → Int
  | .CONNECT => 0
  | .SERVER_INFO => 1
  | .REQUEST => 2
  | .RESPONSE => 3
  | .REQUEST_MODEL_DEF => 4
  | .MODEL_DEF => 5
  | .REQUEST_FRAME_OF_DATA => 6
  | .FRAME_OF_DATA => 7
  | .MESSAGE_STRING => 8
  | .DISCONNECT => 9
  | .KEEP_ALIVE => 10
  | .UNRECOGNIZED_REQUEST => 100
  | .UNDEFINED => 999999

/-- `NAT_Messages(t)`: enum lookup with the `_missing_` hook mapping every
unknown numeric id to `UNDEFINED`. -/
def natMessagesOfInt (t : Int) : NAT_Messages :=
  if t = 0 then .CONNECT
  else if t = 1 then .SERVER_INFO
  else if t = 2 then .REQUEST
  else if t = 3 then .RESPONSE
  else if t = 4 then .REQUEST_MODEL_DEF
  else if t = 5 then .MODEL_DEF
  else if t = 6 then .REQUEST_FRAME_OF_DATA
  else if t = 7 then .FRAME_OF_DATA
  else if t = 8 then .MESSAGE_STRING
  else if t = 9 then .DISCONNECT
  else if t = 10 then .KEEP_ALIVE
  else if t = 100 then .UNRECOGNIZED_REQUEST
  else .UNDEFINED

/-- Enum `NAT_Data` (src/new_natnet_client/NatNetTypes.py, lines 7-19). -/
inductive NAT_Data
  | MARKER_SET
  | RIGID_BODY
  | SKELETON
  | FORCE_PLATE
  | DEVICE
  | CAMERA
  | ASSET
  | UNDEFINED
  deriving DecidableEq

/-- `NAT_Data(t)`: enum lookup with the `_missing_` hook mapping every
unknown numeric id to `UNDEFINED` (and -1 itself is `UNDEFINED`). -/
def natDataOfInt (t : Int) : NAT_Data :=
  if t = 0 then .MARKER_SET
  else if t = 1 then .RIGID_BODY
  else if t = 2 then .SKELETON
  else if t = 3 then .FORCE_PLATE
  else if t = 4 then .DEVICE
  else if t = 5 then .CAMERA
  else if t = 6 then .ASSET
  else .UNDEFINED

/-- `collections.deque(maxlen=n)`: a bounded buffer that evicts from the
front when an append overflows the capacity. -/
structure BDeque (α : Type) where
  maxlen : Nat
  items : List α
  deriving DecidableEq

/-- `deque.append`: keep the last `maxlen` elements. -/
def BDeque.push {α : Type} (d : BDeque α) (x : α) : BDeque α :=
  ⟨d.maxlen, (d.items ++ [x]).drop ((d.items ++ [x]).length - d.maxlen)⟩

/-- `Server_info` (src/natnet_client/Client.py, lines 15-20).  The
application name is kept as raw bytes. -/
structure Server_info where
  application_name : List Nat
  version : Nat × Nat × Nat × Nat
  nat_net_major : Nat
  nat_net_minor : Nat
  deriving DecidableEq

/-- Which of the two external unpacker classes is currently selected. -/
inductive UnpackerVersion
  | V3_0
  | V4_1
  deriving DecidableEq

/-- The version-selection core of `NatNetClient.__update_unpacker_version`
(Client.py lines 206-209): `DataUnpackerV3_0`, overridden by
`DataUnpackerV4_1` when (major = 4 and minor >= 1) or major = 0. -/
def selectUnpacker (si : Server_info) : UnpackerVersion :=
  if (si.nat_net_major = 4 ∧ si.nat_net_minor ≥ 1) ∨ si.nat_net_major = 0 then
    .V4_1
  else
    .V3_0

/-- An entry of the `__server_responses` deque: `int | str` in the source. -/
inductive ServerResp
  | intResp (n : Int)
  | strResp (s : List Nat)
  deriving DecidableEq

/-- The dispatcher-visible state of a `NatNetClient`: negotiated server
info, currently selected unpacker, bounded response/message histories
and whether a mocap frame has been stored. -/
structure DispatchState where
  server_info : Server_info
  unpacker : UnpackerVersion
  server_responses : BDeque ServerResp
  server_messages : BDeque (List Nat)
  mocapStored : Bool
  deriving DecidableEq

/-- `NatNetClient.__update_unpacker_version` (Client.py lines 206-218) as
a state transformer: re-selects the unpacker from the current server
info (the descriptor-unpacker table rebuild is subsumed by the
`unpacker` field, which keys the abstract `CodecOracle`). -/
def update_unpacker_version (st : DispatchState) : DispatchState :=
  { st with unpacker := selectUnpacker st.server_info }

/-- Exceptions that can escape a message handler. -/
inductive HandlerError
  | structError
  | codecError
  deriving DecidableEq

/-- `NatNetClient.__unpack_server_info` (Client.py lines 241-254): a
256-byte null-terminated name field, 4 raw version bytes, then
major/minor + 2 reserved bytes (each 4-byte group read with
`struct.unpack('BBBB', ...)`, which raises `struct.error` unless exactly
4 bytes are available).  Note: line 253 reads the attribute
`self.__update_unpacker_version` without calling it, so the selected
unpacker is NOT updated here. -/
def unpack_server_info (st : DispatchState) (data : List Nat) :
    Except HandlerError (DispatchState × Nat) :=
  let application_name := beforeNull (data.take 256)
  match (data.drop 256).take 4, (data.drop 260).take 4 with
  | [v0, v1, v2, v3], [m0, m1, _, _] =>
      .ok ({ st with
              server_info := ⟨application_name, (v0, v1, v2, v3), m0, m1⟩ }, 264)
  | _, _ => .error .structError

/-- `NatNetClient.__unpack_server_response` (Client.py lines 256-266). -/
def unpack_server_response (st : DispatchState) (data : List Nat)
    (packet_size : Int) : DispatchState × Int :=
  if packet_size = 4 then
    ({ st with
        server_responses :=
          st.server_responses.push (.intResp (intFromBytesLE data)) }, 4)
  else
    let response := beforeNull (data.take 256)
    if response.length < 30 then
      ({ st with
          server_responses := st.server_responses.push (.strResp response) },
        (response.length : Int))
    else
      (st, (response.length : Int))

/-- `NatNetClient.__unpack_server_message` (Client.py lines 268-272). -/
def unpack_server_message (st : DispatchState) (data : List Nat) :
    DispatchState × Int :=
  let message := beforeNull data
  ({ st with server_messages := st.server_messages.push message },
    (message.length : Int) + 1)

/-- The external `Unpackers` module (not among the embedded sources):
decode entry points of the selected unpacker class, abstracted.
`unpackMocap` models `unpack_mocap_data` (which may raise);
`descUnpack` models the per-descriptor unpackers keyed by
`__mapped_data_descriptors`, returning the consumed byte count. -/
structure CodecOracle where
  unpackMocap : UnpackerVersion → List Nat → Except HandlerError Nat
  descUnpack : UnpackerVersion → NAT_Data → List Nat → Nat

/-- The `for i in range(dataset_count)` loop of
`NatNetClient.__unpack_data_descriptions` (Client.py lines 228-238).
Under `V4_1` a 4-byte declared size is read into `size_in_bytes` — a
variable the source never uses afterwards — and for an `UNDEFINED`
(unrecognized) type id the loop logs and `continue`s without advancing
the cursor past the entry's body. -/
def descLoop (oracle : CodecOracle) (unp : UnpackerVersion) (data : List Nat) :
    Nat → Nat → Nat
  | 0, offset => offset
  | n + 1, offset =>
      let t := intFromBytesLE ((data.drop offset).take 4)
      let o1 := offset + 4
      let o2 := if unp = .V4_1 then o1 + 4 else o1
      if natDataOfInt t = .UNDEFINED then
        descLoop oracle unp data n o2
      else
        descLoop oracle unp data n
          (o2 + oracle.descUnpack unp (natDataOfInt t) (data.drop o2))

/-- `NatNetClient.__unpack_data_descriptions` (Client.py lines 225-239):
read a 4-byte signed dataset count, then run the entry loop, returning
the final cursor offset. -/
def unpack_data_descriptions (oracle : CodecOracle) (unp : UnpackerVersion)
    (data : List Nat) : Nat :=
  descLoop oracle unp data (intFromBytesLE (data.take 4)).toNat 4

/-- `NatNetClient.__process_message` (Client.py lines 282-288): read the
2-byte signed message id and 2-byte signed declared size, then route the
remaining bytes to the handler mapped in `self.__mapped`; ids absent
from that table (CONNECT, REQUEST, REQUEST_MODEL_DEF,
REQUEST_FRAME_OF_DATA, DISCONNECT, KEEP_ALIVE) return with no action.
There is no try/except here: a handler failure propagates to the
caller. -/
def process_message (oracle : CodecOracle) (st : DispatchState)
    (data : List Nat) : Except HandlerError DispatchState :=
  let message_id := natMessagesOfInt (intFromBytesLE (data.take 2))
  let packet_size := intFromBytesLE ((data.drop 2).take 2)
  let payload := data.drop 4
  match message_id with
  | .FRAME_OF_DATA =>
      match oracle.unpackMocap st.unpacker payload with
      | .error e => .error e
      | .ok _ => .ok { st with mocapStored := true }
  | .MODEL_DEF =>
      let _ := unpack_data_descriptions oracle st.unpacker payload
      .ok st
  | .SERVER_INFO =>
      match unpack_server_info st payload with
      | .error e => .error e
      | .ok (st2, _) => .ok st2
  | .RESPONSE => .ok (unpack_server_response st payload packet_size).1
  | .MESSAGE_STRING => .ok (unpack_server_message st payload).1
  | .UNRECOGNIZED_REQUEST => .ok st
  | .UNDEFINED => .ok st
  | _ => .ok st

/-- Outcome of one `recv` call on the data socket. -/
inductive RecvOutcome
  | recvOk (data : List Nat)
  | sockError
  deriving DecidableEq

/-- What the loop body decides to do next. -/
inductive LoopControl
  | next
  | exitThread
  deriving DecidableEq

/-- One iteration of the `while run` body of
`NatNetClient.__data_thread_function` (Client.py lines 295-305): a
missing socket returns from the thread; a `socket.error` from `recv` is
caught, logged and replaced by the empty buffer; a non-empty buffer is
passed to `__process_message`, whose exceptions are NOT caught and so
escape the loop (and the thread). -/
def data_thread_iteration (oracle : CodecOracle) (st : DispatchState)
    (sockPresent : Bool) (r : RecvOutcome) :
    Except HandlerError (DispatchState × LoopControl) :=
  if sockPresent = false then .ok (st, .exitThread)
  else
    let data := match r with
      | .recvOk d => d
      | .sockError => []
    if data.length ≠ 0 then
      match process_message oracle st data with
      | .error e => .error e
      | .ok st2 => .ok (st2, .next)
    else
      .ok (st, .next)

/-- Initial `Server_info` installed by `__post_init__` (Client.py line
131): name "None" (bytes), version (0,0,0,0), NatNet 0.0. -/
def initServer_info : Server_info :=
  ⟨[78, 111, 110, 101], (0, 0, 0, 0), 0, 0⟩

/-- Dispatcher-visible state right after `__post_init__` (Client.py
lines 118-147): fresh bounded buffers, default server info, then the
one real call to `__update_unpacker_version()` (line 147), which
selects `V4_1` because the initial major version is 0.  The `V3_0`
placeholder mirrors the attribute not existing before that call. -/
def initDispatchState (max_buffer_size : Nat) : DispatchState :=
  update_unpacker_version
    ⟨initServer_info, .V3_0, ⟨max_buffer_size, []⟩, ⟨max_buffer_size, []⟩, false⟩

/-- The CONNECT command string built at Client.py lines 182-188:
`"Ping".ljust(265, '\x00')` (pad on the right to 265 chars) followed by
the four client-version chars 4,1,0,0 and a null char. -/
def connectCommandBytes : List Nat :=
  [80, 105, 110, 103] ++ List.replicate 261 0 ++ [4, 1, 0, 0] ++ [0]

/-- The `command` value after the branch at Client.py lines 175-188. -/
def requestCommandBytes (c : NAT_Messages) (command : List Nat) : List Nat :=
  if c = .KEEP_ALIVE ∨ c = .REQUEST_MODEL_DEF ∨ c = .REQUEST_FRAME_OF_DATA then
    []
  else if c = .CONNECT then connectCommandBytes
  else command

/-- The `packet_size` value after the branch at Client.py lines 174-189. -/
def requestPacketSize (c : NAT_Messages) (command : List Nat) : Int :=
  if c = .KEEP_ALIVE ∨ c = .REQUEST_MODEL_DEF ∨ c = .REQUEST_FRAME_OF_DATA then
    0
  else if c = .REQUEST then (command.length : Int) + 1
  else if c = .CONNECT then (connectCommandBytes.length : Int) + 1
  else 0

/-- The datagram assembled at Client.py lines 190-193: 2-byte signed LE
message id, 2-byte signed LE packet size, the command bytes
(`command.encode("utf-8")` — the identity on the ASCII-range bytes the
client produces), and a trailing null byte.  Only reached for
`c ≠ UNDEFINED` (guarded at line 173). -/
def buildRequestData (c : NAT_Messages) (command : List Nat) : List Nat :=
  intToBytes2LE c.value ++ intToBytes2LE (requestPacketSize c command)
    ++ requestCommandBytes c command ++ [0]

/-- A `socket.error` raised by `sendto`. -/
inductive SockErr
  | sockError
  deriving DecidableEq

/-- `NatNetClient.send_request` (Client.py lines 172-196).
`sendOutcome` is what the OS `sendto` would return (byte count) or
raise, were it reached.  Returns the Python result (or the propagated
exception) together with the datagram actually handed to `sendto`, if
any. -/
def send_request (running : Bool) (sockPresent : Bool) (c : NAT_Messages)
    (command : List Nat) (sendOutcome : Except SockErr Nat) :
    Except SockErr Int × Option (List Nat) :=
  if running = false ∨ c = .UNDEFINED then (.ok (-1), none)
  else
    let data := buildRequestData c command
    if sockPresent = false then (.ok (-1), none)
    else
      match sendOutcome with
      | .error e => (.error e, some data)
      | .ok n => (.ok (n : Int), some data)

/-- The `for _ in range(3)` retry loop of `NatNetClient.send_command`
(Client.py lines 199-203): `attempts k` is the OS outcome of the k-th
attempted send; the loop stops at the first result different from -1; a
raised `socket.error` is not caught and propagates. -/
def send_command_loop (running sockPresent : Bool) (command : List Nat)
    (attempts : Nat → Except SockErr Nat) : Nat → Nat → Int → Except SockErr Int
  | _, 0, res => .ok res
  | k, n + 1, _ =>
      match send_request running sockPresent .REQUEST command (attempts k) with
      | (.error e, _) => .error e
      | (.ok r, _) => if r ≠ -1 then .ok r else send_command_loop running
          sockPresent command attempts (k + 1) n r

/-- `NatNetClient.send_command` (Client.py lines 198-204): run the retry
loop from `res = -1`, then report `res != -1`. -/
def send_command (running sockPresent : Bool) (command : List Nat)
    (attempts : Nat → Except SockErr Nat) : Except SockErr Bool :=
  match send_command_loop running sockPresent command attempts 0 3 (-1) with
  | .error e => .error e
  | .ok r => .ok (decide (r ≠ -1))

/-- The six connection-configuration dataclass fields of `NatNetClient`
(Client.py lines 24-29). -/
structure ConfigFields where
  server_address : String
  local_ip_address : String
  use_multicast : Bool
  multicast_address : String
  command_port : Int
  data_port : Int
  deriving DecidableEq

/-- The dataclass defaults (Client.py lines 24-29). -/
def defaultConfig : ConfigFields :=
  ⟨"127.0.0.1", "127.0.0.1", true, "239.255.42.99", 1510, 1511⟩

/-- Names of the attributes listed in the `__setattr__` guard tuple
(Client.py lines 150-157). -/
inductive ConfigAttr
  | server_address
  | local_ip_address
  | use_multicast
  | multicast_address
  | command_port
  | data_port
  deriving DecidableEq

/-- A Python value assigned to a configuration attribute. -/
inductive AttrValue
  | strV (s : String)
  | boolV (b : Bool)
  | intV (n : Int)
  deriving DecidableEq

/-- Store an attribute value; assignments whose value kind does not
match the field are not modelled (the claims only assign matching
kinds). -/
def ConfigFields.assign (cfg : ConfigFields) : ConfigAttr → AttrValue → ConfigFields
  | .server_address, .strV s => { cfg with server_address := s }
  | .local_ip_address, .strV s => { cfg with local_ip_address := s }
  | .use_multicast, .boolV b => { cfg with use_multicast := b }
  | .multicast_address, .strV s => { cfg with multicast_address := s }
  | .command_port, .intV n => { cfg with command_port := n }
  | .data_port, .intV n => { cfg with data_port := n }
  | _, _ => cfg

/-- The `FrozenInstanceError` raised by the `__setattr__` guard. -/
inductive FrozenInstanceError
  | frozen
  deriving DecidableEq

/-- Connection-manager state of a `NatNetClient` instance: configuration
fields, `__running`, `__freeze`, whether each socket is present
(not `None`), and whether the two thread attributes exist (they are
created only at Client.py lines 167-170). -/
structure ClientState where
  cfg : ConfigFields
  running : Bool
  freeze : Bool
  commandSock : Bool
  dataSock : Bool
  threadsCreated : Bool
  deriving DecidableEq

/-- State of an instance whose `__post_init__` field defaults have been
installed but which has not yet run `connect()`.  Note `__freeze`
defaults to `False` and is never assigned anywhere else in Client.py. -/
def initClientState (cfg : ConfigFields) : ClientState :=
  ⟨cfg, false, false, false, false, false⟩

/-- `NatNetClient.__setattr__` (Client.py lines 149-159) restricted to
the six guarded configuration attributes: raises `FrozenInstanceError`
iff `self.__freeze` is set, otherwise performs the assignment. -/
def setattrConfig (st : ClientState) (a : ConfigAttr) (v : AttrValue) :
    Except FrozenInstanceError ClientState :=
  if st.freeze then .error .frozen
  else .ok { st with cfg := st.cfg.assign a v }

/-- `NatNetClient.connect` (Client.py lines 161-170).  `bindCmd` /
`bindData` say whether the two `create_socket` binds succeed (a failed
bind leaves the correspondig socket attribute `None`); `sendOutcome` is
the OS outcome for the handshake send were `sendto` reached.  Returns
the new state and the datagram handed to `sendto`, if any.  Line 164
calls `send_request(NAT_Messages.CONNECT, "")` while `self.__running`
is still `False`, and only line 165 sets it to `True`; `__freeze` is
not touched. -/
def connect (st : ClientState) (bindCmd bindData : Bool)
    (sendOutcome : Except SockErr Nat) : ClientState × Option (List Nat) :=
  if st.running then (st, none)
  else if bindCmd = false then (st, none)
  else
    let st1 := { st with commandSock := true }
    if bindData = false then (st1, none)
    else
      let st2 := { st1 with dataSock := true }
      let s := send_request st2.running st2.commandSock .CONNECT [] sendOutcome
      ({ st2 with running := true, threadsCreated := true }, s.2)

/-- The `AttributeError` raised by `self.__data_thread.join()` when the
thread attributes were never created. -/
inductive AttributeError
  | missingThread
  deriving DecidableEq

/-- `NatNetClient.shutdown` (Client.py lines 329-341): clear
`__running`, close both sockets (when present) and set them to `None`,
then join both threads — which raises `AttributeError` iff no
successful `connect()` ever created the thread attributes.  The state
mutations happen before the raise, so they are returned alongside the
error. -/
def shutdown (st : ClientState) : ClientState × Option AttributeError :=
  let st1 := { st with running := false, commandSock := false, dataSock := false }
  if st1.threadsCreated then (st1, none) else (st1, some .missingThread)

/-- The connection-manager part of `NatNetClient.__post_init__`
(Client.py lines 118-147): install the defaults, then immediately call
`connect()` during construction. -/
def post_init (cfg : ConfigFields) (bindCmd bindData : Bool)
    (sendOutcome : Except SockErr Nat) : ClientState × Option (List Nat) :=
  connect (initClientState cfg) bindCmd bindData sendOutcome

/-!
Model of the Python `dict` built by the comprehensions in
src/new_natnet_client/NatNetTypes.py: an insertion-ordered association
list where inserting an existing key overwrites its value in place.
-/

/-- `d[k] = v` on an insertion-ordered dict. -/
def pydictInsert {α : Type} (m : List (Int × α)) (k : Int) (v : α) :
    List (Int × α) :=
  if m.any (fun p => p.1 == k) then
    m.map (fun p => if p.1 == k then (k, v) else p)
  else
    m ++ [(k, v)]

/-- The dict built by a comprehension over `l` keyed by the first
component: entries are inserted left to right, so a duplicated key ends
up with its last value. -/
def pydictOf {α : Type} (l : List (Int × α)) : List (Int × α) :=
  l.foldl (fun m p => pydictInsert m p.1 p.2) []

/-- `d.get(k)`. -/
def pydictGet? {α : Type} (m : List (Int × α)) (k : Int) : Option α :=
  (m.find? (fun p => p.1 == k)).map Prod.snd

/-- `Position` (NatNetTypes.py lines 46-53); float coordinates are
modelled as rationals. -/
structure Position where
  x : ℚ
  y : ℚ
  z : ℚ
  deriving DecidableEq

/-- `Quaternion` (NatNetTypes.py lines 55-70).  The derived
`roll`/`pitch`/`jaw` fields are floating-point `atan2`/`asin`
computations, outside the rational model and unused by the map
invariants verified here. -/
structure Quaternion where
  x : ℚ
  y : ℚ
  z : ℚ
  w : ℚ
  deriving DecidableEq

/-- `Rigid_body` (NatNetTypes.py lines 99-105). -/
structure Rigid_body where
  id : Int
  pos : Position
  rot : Quaternion
  err : ℚ
  tracking : Bool
  deriving DecidableEq

/-- `Rigid_body_data` (NatNetTypes.py lines 107-114). -/
structure Rigid_body_data where
  num_rigid_bodies : Int
  rigid_bodies : List Rigid_body
  rigid_bodies_d : List (Int × Rigid_body)
  deriving DecidableEq

/-- Construction of a `Rigid_body_data`, including its `__post_init__`
(NatNetTypes.py lines 113-114), which builds `rigid_bodies_d` as the
dict comprehension keyed by `instance.id` over `rigid_bodies`. -/
def mkRigid_body_data (n : Int) (rbs : List Rigid_body) : Rigid_body_data :=
  ⟨n, rbs, pydictOf (rbs.map (fun rb => (rb.id, rb)))⟩

/-- `Labeled_marker` (NatNetTypes.py lines 169-175). -/
structure Labeled_marker where
  id : Int
  pos : Position
  size : Int
  param : Int
  residual : ℚ
  deriving DecidableEq

/-- `Labeled_marker_data` (NatNetTypes.py lines 177-184). -/
structure Labeled_marker_data where
  num_markers : Int
  markers : List Labeled_marker
  markers_d : List (Int × Labeled_marker)
  deriving DecidableEq

/-- Construction of a `Labeled_marker_data`, including its
`__post_init__` (NatNetTypes.py lines 183-184). -/
def mkLabeled_marker_data (n : Int) (ms : List Labeled_marker) :
    Labeled_marker_data :=
  ⟨n, ms, pydictOf (ms.map (fun m => (m.id, m)))⟩

/-- A concrete codec oracle for closed evaluations: the external
unpackers are never reached on the inputs below, so trivial stubs
suffice. -/
def oracle0 : CodecOracle :=
  ⟨fun _ _ => .ok 0, fun _ _ _ => 0⟩

/-- A complete SERVER_INFO datagram: id 1, declared size 264, name
"Motive" null-padded to 256 bytes, server version bytes 3.0.0.0, NatNet
version bytes major 3, minor 0 (+ 2 reserved). -/
def serverInfoDatagramV3 : List Nat :=
  [1, 0] ++ [8, 1] ++ ([77, 111, 116, 105, 118, 101] ++ List.replicate 250 0)
    ++ [3, 0, 0, 0] ++ [3, 0, 0, 0]

/-- Claim C1 (code bug): after a decoded SERVER_INFO message announcing
NatNet 3.0, the stored server info says major 3 — for which the
selection policy picks the legacy variant `V3_0` — yet the active
unpacker is still `V4_1`: Client.py line 253 reads
`self.__update_unpacker_version` without calling it, so the variant is
never re-selected after a SERVER_INFO message. -/
theorem serverInfo_leaves_unpacker_stale :
    ∃ st2 : DispatchState,
      process_message oracle0 (initDispatchState 255) serverInfoDatagramV3
          = .ok st2
        ∧ st2.server_info.nat_net_major = 3
        ∧ st2.server_info.nat_net_minor = 0
        ∧ selectUnpacker st2.server_info = .V3_0
        ∧ st2.unpacker = .V4_1 := by
  refine ⟨_, rfl, ?_, ?_, ?_, ?_⟩ <;> rfl

/-- The client state after a successful `connect()` on a fresh
instance. -/
def connectedState : ClientState :=
  (connect (initClientState defaultConfig) true true (.ok 0)).1

/-- Claim C2 (code bug): assigning `data_port` before connecting
succeeds, but so does the same assignment after `connect()` has
succeeded, because `__freeze` is never set to `True` anywhere in
Client.py; the `__setattr__` guard (which would raise
`FrozenInstanceError`, last conjunct) is never armed. -/
theorem config_mutation_after_connect :
    connectedState.running = true
    ∧ connectedState.freeze = false
    ∧ setattrConfig (initClientState defaultConfig) .data_port (.intV 1512)
        = .ok { initClientState defaultConfig with
                  cfg := { defaultConfig with data_port := 1512 } }
    ∧ setattrConfig connectedState .data_port (.intV 1512)
        = .ok { connectedState with
                  cfg := { connectedState.cfg with data_port := 1512 } }
    ∧ setattrConfig { connectedState with freeze := true } .data_port
        (.intV 1512) = .error .frozen :=
  ⟨rfl, rfl, rfl, rfl, rfl⟩

/-- Claim C10 (code bug): construction (`__post_init__`) does invoke
`connect()` — after it the instance is running with both threads
created, and a failed bind leaves it disconnected with no threads — but
no CONNECT handshake datagram is ever handed to `sendto` (third
conjunct): `send_request` is called at Client.py line 164 while
`__running` is still `False` and therefore returns -1 without
sending. -/
theorem construction_sends_no_handshake :
    (post_init defaultConfig true true (.ok 0)).1.running = true
    ∧ (post_init defaultConfig true true (.ok 0)).1.threadsCreated = true
    ∧ (post_init defaultConfig true true (.ok 0)).2 = none
    ∧ (post_init defaultConfig false true (.ok 0)).1
        = initClientState defaultConfig
    ∧ (post_init defaultConfig true false (.ok 0)).1.running = false
    ∧ (post_init defaultConfig true false (.ok 0)).1.threadsCreated = false :=
  ⟨rfl, rfl, rfl, rfl, rfl, rfl⟩

/-- Claim C3, counterexample: the datagram [1,0,0,0] (SERVER_INFO with
an empty payload) makes the handler raise `struct.error`, and that
failure is not caught at the dispatcher boundary: it escapes
`__process_message` and the receive-loop iteration itself, so it does
cross into the receive loop. -/
theorem handler_error_escapes_loop :
    data_thread_iteration oracle0 (initDispatchState 255) true
      (.recvOk [1, 0, 0, 0]) = .error .structError := rfl

/-- Claim C5, counterexample: under the current variant (`V4_1`) a
descriptor set with one entry of unrecognized type id 99 and declared
size 16 is consumed only up to offset 12 (count + type id + size
field); the cursor is NOT advanced by the declared 16-byte body, where
the claim requires offset 28.  Under the legacy variant the same
unknown id is likewise logged and stepped over (offset 8), not a hard
decode failure. -/
theorem unknown_descriptor_not_skipped :
    unpack_data_descriptions oracle0 .V4_1
        ([1, 0, 0, 0] ++ [99, 0, 0, 0] ++ [16, 0, 0, 0] ++ List.replicate 16 7)
      = 12
    ∧ (12 : Nat) ≠ 4 + 4 + 4 + 16
    ∧ unpack_data_descriptions oracle0 .V3_0 ([1, 0, 0, 0] ++ [99, 0, 0, 0])
        = 8 := by
  refine ⟨rfl, by decide, rfl⟩

/-- A send schedule whose first attempt raises `socket.error` and whose
later attempts would succeed. -/
def attemptsFailThenOk : Nat → Except SockErr Nat :=
  fun k => if k = 0 then .error .sockError else .ok 5

/-- Claim C6, counterexample: with the client connected and a transient
socket error on the first send attempt (the second attempt would
succeed), `send_command` does not retry: the uncaught `socket.error`
propagates to the caller instead of the claimed retried send /
failure report. -/
theorem send_command_error_escapes :
    send_command true true [65] attemptsFailThenOk = .error .sockError := rfl

/-- Claim C9, counterexample: on an instance whose implicit `connect()`
failed at socket binding, the receive-thread attributes were never
created, so `shutdown()` raises `AttributeError` when joining them —
and so does every later call, refuting "safe to call multiple times on
any instance". -/
theorem shutdown_fails_without_threads :
    (shutdown (post_init defaultConfig false false (.ok 0)).1).2
        = some .missingThread
    ∧ (shutdown (shutdown (post_init defaultConfig false false (.ok 0)).1).1).2
        = some .missingThread :=
  ⟨rfl, rfl⟩

/-- Claim C3 (amended): a `socket.error` raised while receiving is
caught and the loop continues with no state change; but a failure
raised inside a message handler is not caught at the dispatcher
boundary — it propagates out of `__process_message` and out of the
receive-loop iteration, terminating the thread. -/
theorem receive_loop_error_boundary (oracle : CodecOracle)
    (st : DispatchState) (r : RecvOutcome) :
    data_thread_iteration oracle st true .sockError = .ok (st, .next)
    ∧ (∀ d e, r = .recvOk d → d.length ≠ 0 →
        process_message oracle st d = .error e →
        data_thread_iteration oracle st true r = .error e)
    ∧ (∀ d st2, r = .recvOk d → d.length ≠ 0 →
        process_message oracle st d = .ok st2 →
        data_thread_iteration oracle st true r = .ok (st2, .next)) := by
  refine ⟨rfl, ?_, ?_⟩
  · rintro d e rfl hd hp
    simp [data_thread_iteration, hd, hp]
  · rintro d st2 rfl hd hp
    simp [data_thread_iteration, hd, hp]

/-- Witness for `receive_loop_error_boundary` at concrete inputs: a
socket error is swallowed, while the truncated SERVER_INFO datagram
[1,0,0,0] makes the iteration itself fail. -/
theorem receive_loop_error_boundary_witness :
    data_thread_iteration oracle0 (initDispatchState 255) true .sockError
        = .ok (initDispatchState 255, .next)
    ∧ data_thread_iteration oracle0 (initDispatchState 255) true
        (.recvOk [1, 0, 0, 2]) = .error .structError := by
  have h := receive_loop_error_boundary oracle0 (initDispatchState 255)
    (.recvOk [1, 0, 0, 2])
  exact ⟨h.1, h.2.1 [1, 0, 0, 2] .structError rfl (by decide) rfl⟩

/-- `deque.append` always leaves the new element at the back, provided
the capacity is at least 1. -/
theorem BDeque.push_getLast? {α : Type} (d : BDeque α) (x : α)
    (h : 1 ≤ d.maxlen) : (d.push x).items.getLast? = some x := by
  unfold BDeque.push
  have hk : (d.items ++ [x]).length - d.maxlen ≤ d.items.length := by
    simp only [List.length_append, List.length_cons, List.length_nil]
    omega
  rw [List.drop_append_of_le_length hk]
  exact List.getLast?_concat _

/-- `deque.append` keeps the buffer at its capacity. -/
theorem BDeque.push_length {α : Type} (d : BDeque α) (x : α) :
    (d.push x).items.length = min (d.items.length + 1) d.maxlen := by
  unfold BDeque.push
  simp only [List.length_drop, List.length_append, List.length_cons,
    List.length_nil]
  omega

/-- Claim C4: a RESPONSE payload with declared size exactly 4 is
appended to the response history as a little-endian signed integer;
any other declared size reads the payload as a null-terminated string,
appended only when shorter than 30 bytes and dropped otherwise; no
other dispatcher state is touched. -/
theorem response_history_policy (st : DispatchState) (data : List Nat)
    (ps : Int) (hm : 1 ≤ st.server_responses.maxlen) :
    (ps = 4 →
      (unpack_server_response st data ps).1.server_responses.items.getLast?
          = some (.intResp (intFromBytesLE data))
      ∧ (unpack_server_response st data ps).2 = 4)
    ∧ (ps ≠ 4 →
        ((beforeNull (data.take 256)).length < 30 →
          (unpack_server_response st data ps).1.server_responses.items.getLast?
              = some (.strResp (beforeNull (data.take 256))))
        ∧ (¬ (beforeNull (data.take 256)).length < 30 →
            (unpack_server_response st data ps).1 = st)
        ∧ (unpack_server_response st data ps).2
            = ((beforeNull (data.take 256)).length : Int))
    ∧ (unpack_server_response st data ps).1.server_messages
        = st.server_messages
    ∧ (unpack_server_response st data ps).1.server_info = st.server_info
    ∧ (unpack_server_response st data ps).1.unpacker = st.unpacker := by
  refine ⟨?_, ?_, ?_, ?_, ?_⟩
  · intro hps
    subst hps
    exact ⟨BDeque.push_getLast? _ _ hm, by simp [unpack_server_response]⟩
  · intro hps
    refine ⟨?_, ?_, ?_⟩
    · intro hlen
      simp only [unpack_server_response, if_neg hps, if_pos hlen]
      exact BDeque.push_getLast? _ _ hm
    · intro hlen
      simp [unpack_server_response, if_neg hps, if_neg hlen]
    · by_cases hlen : (beforeNull (data.take 256)).length < 30 <;>
        simp [unpack_server_response, if_neg hps, hlen]
  · by_cases hps : ps = 4
    · subst hps; rfl
    · by_cases hlen : (beforeNull (data.take 256)).length < 30 <;>
        simp [unpack_server_response, if_neg hps, hlen]
  · by_cases hps : ps = 4
    · subst hps; rfl
    · by_cases hlen : (beforeNull (data.take 256)).length < 30 <;>
        simp [unpack_server_response, if_neg hps, hlen]
  · by_cases hps : ps = 4
    · subst hps; rfl
    · by_cases hlen : (beforeNull (data.take 256)).length < 30 <;>
        simp [unpack_server_response, if_neg hps, hlen]

/-- Witness for `response_history_policy`: payload bytes [7,0,0,0] with
declared size 4 append the integer response 7. -/
theorem response_history_policy_witness :
    (unpack_server_response (initDispatchState 255)
        [7, 0, 0, 0] 4).1.server_responses.items.getLast?
      = some (.intResp 7) := by
  have h := (response_history_policy (initDispatchState 255) [7, 0, 0, 0] 4
    (by decide)).1 rfl
  have h7 : intFromBytesLE [7, 0, 0, 0] = 7 := by decide
  rw [h7] at h
  exact h.1

/-- Unfolding lemma for one iteration of the descriptor-set entry
loop. -/
theorem descLoop_succ (oracle : CodecOracle) (unp : UnpackerVersion)
    (data : List Nat) (n offset : Nat) :
    descLoop oracle unp data (n + 1) offset
      = if natDataOfInt (intFromBytesLE ((data.drop offset).take 4))
            = .UNDEFINED then
          descLoop oracle unp data n
            (if unp = .V4_1 then offset + 4 + 4 else offset + 4)
        else
          descLoop oracle unp data n
            ((if unp = .V4_1 then offset + 4 + 4 else offset + 4)
              + oracle.descUnpack unp
                  (natDataOfInt (intFromBytesLE ((data.drop offset).take 4)))
                  (data.drop
                    (if unp = .V4_1 then offset + 4 + 4 else offset + 4))) := by
  cases unp <;> rfl

/-- Claim C5 (amended): an entry with an unrecognized type id is logged
and stepped over only past its 4-byte type id (plus, under the current
variant, the 4-byte declared-size field): the cursor is never advanced
by the declared body size, and in neither variant is an unrecognized
id a hard decode failure — the loop continues from the entry's body. -/
theorem unrecognized_descriptor_cursor (oracle : CodecOracle)
    (u : UnpackerVersion) (b0 b1 b2 b3 : Nat) (rest : List Nat)
    (hu : natDataOfInt (intFromBytesLE [b0, b1, b2, b3]) = .UNDEFINED) :
    unpack_data_descriptions oracle u
        ([1, 0, 0, 0] ++ [b0, b1, b2, b3] ++ rest)
      = if u = .V4_1 then 12 else 8 := by
  have htake : ([1, 0, 0, 0] ++ [b0, b1, b2, b3] ++ rest).take 4
      = [1, 0, 0, 0] := rfl
  have hbytes : (([1, 0, 0, 0] ++ [b0, b1, b2, b3] ++ rest).drop 4).take 4
      = [b0, b1, b2, b3] := rfl
  have hcount : (intFromBytesLE [1, 0, 0, 0]).toNat = 0 + 1 := rfl
  unfold unpack_data_descriptions
  rw [htake, hcount, descLoop_succ, hbytes, hu, if_pos rfl]
  cases u <;> rfl

/-- Witness for `unrecognized_descriptor_cursor`: a one-entry current
variant descriptor set with unknown type id 99 stops at offset 12. -/
theorem unrecognized_descriptor_cursor_witness :
    unpack_data_descriptions oracle0 .V4_1
        ([1, 0, 0, 0] ++ [99, 0, 0, 0] ++ [5, 5]) = 12 := by
  have h := unrecognized_descriptor_cursor oracle0 .V4_1 99 0 0 0 [5, 5]
    (by decide)
  simpa using h

/-- Claim C6 (amended): `send_command` returns failure without handing
anything to `sendto` when the client is not connected (and likewise
when the command socket is missing, after exhausting the 3-iteration
loop); it reports success as soon as one send attempt returns a byte
count; but a transient socket error raised by the underlying send is
not caught: the first such error propagates to the caller and no retry
happens. -/
theorem send_command_behavior (sp : Bool) (cmd : List Nat)
    (attempts : Nat → Except SockErr Nat) :
    send_command false sp cmd attempts = .ok false
    ∧ (send_request false sp .REQUEST cmd (attempts 0)).2 = none
    ∧ send_command true false cmd attempts = .ok false
    ∧ (∀ e, attempts 0 = .error e →
        send_command true true cmd attempts = .error e)
    ∧ (∀ n, attempts 0 = .ok n →
        send_command true true cmd attempts = .ok true) := by
  refine ⟨rfl, rfl, rfl, ?_, ?_⟩
  · intro e he
    simp [send_command, send_command_loop, send_request, he]
  · intro n hn
    have hne : (n : Int) ≠ -1 := by omega
    simp [send_command, send_command_loop, send_request, hn, hne]

/-- Witness for `send_command_behavior`: not connected reports failure;
connected with a succeeding send reports success. -/
theorem send_command_behavior_witness :
    send_command false true [65] (fun _ => .ok 5) = .ok false
    ∧ send_command true true [65] (fun _ => .ok 5) = .ok true := by
  have h := send_command_behavior true [65] (fun _ => .ok 5)
  exact ⟨h.1, h.2.2.2.2 5 rfl⟩

/-- Claim C9 (amended): `shutdown()` clears the connected flag and
closes both sockets; on an instance whose `connect()` succeeded (the
receive-thread attributes exist) it completes without error and a
second call is a no-op returning the same terminal state; on an
instance that never successfully connected every call raises
`AttributeError` (see the counterexample theorem). -/
theorem shutdown_idempotent_after_connect (st : ClientState)
    (h : st.threadsCreated = true) :
    (shutdown st).2 = none
    ∧ (shutdown st).1.running = false
    ∧ (shutdown st).1.commandSock = false
    ∧ (shutdown st).1.dataSock = false
    ∧ shutdown (shutdown st).1 = ((shutdown st).1, none) := by
  have hs : shutdown st
      = ({ st with running := false, commandSock := false, dataSock := false },
          none) := by
    simp [shutdown, h]
  rw [hs]
  refine ⟨rfl, rfl, rfl, rfl, ?_⟩
  simp [shutdown, h]

/-- Witness for `shutdown_idempotent_after_connect` on the state after
a successful `connect()`. -/
theorem shutdown_idempotent_after_connect_witness :
    (shutdown connectedState).2 = none
    ∧ shutdown (shutdown connectedState).1
        = ((shutdown connectedState).1, none) := by
  have h := shutdown_idempotent_after_connect connectedState rfl
  exact ⟨h.1, h.2.2.2.2⟩

/-- Claim C8: every request datagram is the 2-byte signed little-endian
message id, the 2-byte signed little-endian declared payload size, the
(possibly rewritten) command payload, and a trailing null byte; the
CONNECT payload is "Ping" null-padded to 265 bytes followed by the 4
raw client-version bytes 4,1,0,0 and a null terminator (270 bytes,
declared size 271); a KEEP_ALIVE request is exactly the header bytes
[10,0,0,0] plus the trailing null. -/
theorem request_wire_format (command : List Nat) :
    buildRequestData .KEEP_ALIVE command = [10, 0] ++ [0, 0] ++ [] ++ [0]
    ∧ requestCommandBytes .CONNECT command
        = ([80, 105, 110, 103] ++ List.replicate 261 0) ++ ([4, 1, 0, 0] ++ [0])
    ∧ (requestCommandBytes .CONNECT command).length = 270
    ∧ buildRequestData .CONNECT command
        = intToBytes2LE 0 ++ intToBytes2LE 271
            ++ requestCommandBytes .CONNECT command ++ [0]
    ∧ buildRequestData .REQUEST command
        = intToBytes2LE 2 ++ intToBytes2LE ((command.length : Int) + 1)
            ++ command ++ [0]
    ∧ (∀ c : NAT_Messages, c ≠ .UNDEFINED →
        (buildRequestData c command).take 2 = intToBytes2LE c.value
        ∧ (buildRequestData c command).getLast? = some 0) := by
  have hps0 : requestPacketSize .KEEP_ALIVE command = 0 := rfl
  have hcb0 : requestCommandBytes .KEEP_ALIVE command = [] := rfl
  have hpsC : requestPacketSize .CONNECT command = 271 := rfl
  have hcbC : requestCommandBytes .CONNECT command = connectCommandBytes := rfl
  have hpsR : requestPacketSize .REQUEST command = (command.length : Int) + 1 :=
    rfl
  have hcbR : requestCommandBytes .REQUEST command = command := rfl
  refine ⟨?_, ?_, ?_, ?_, ?_, ?_⟩
  · unfold buildRequestData
    rw [hps0, hcb0]
    rfl
  · rw [hcbC]
    rfl
  · rw [hcbC]
    rfl
  · unfold buildRequestData
    rw [hpsC]
    rfl
  · unfold buildRequestData
    rw [hpsR, hcbR]
    rfl
  · intro c hc
    constructor
    · cases c
      case UNDEFINED => exact absurd rfl hc
      all_goals rfl
    · unfold buildRequestData
      exact List.getLast?_concat _

/-- Witness for `request_wire_format` at the KEEP_ALIVE request. -/
theorem request_wire_format_witness :
    (buildRequestData .KEEP_ALIVE []).take 2
        = intToBytes2LE (NAT_Messages.value .KEEP_ALIVE)
    ∧ (buildRequestData .KEEP_ALIVE []).getLast? = some 0 :=
  (request_wire_format []).2.2.2.2.2 .KEEP_ALIVE (by decide)

/-- Lookup after the in-place value update a Python dict performs when
an inserted key already exists. -/
theorem pydict_find?_update {α : Type} (k k' : Int) (v : α) :
    ∀ m : List (Int × α),
      pydictGet? (m.map (fun p => if p.1 == k then (k, v) else p)) k'
        = if k' = k then (if m.any (fun p => p.1 == k) then some v else none)
          else pydictGet? m k' := by
  intro m
  induction m with
  | nil =>
      by_cases hk : k' = k <;> simp [pydictGet?, hk]
  | cons p t ih =>
      simp only [pydictGet?] at ih
      by_cases hp : p.1 = k
      · have hhead : (if (p.1 == k) = true then (k, v) else p) = (k, v) := by
          simp [hp]
        by_cases hk : k' = k
        · subst hk
          simp only [pydictGet?, List.map_cons, hhead]
          rw [List.find?_cons_of_pos _ (by simp)]
          simp [List.any_cons, hp]
        · have hpk : ¬ p.1 = k' := by
            rw [hp]
            exact fun h => hk h.symm
          have hkk : ¬ k = k' := fun h => hk h.symm
          simp only [pydictGet?, List.map_cons, hhead]
          rw [List.find?_cons_of_neg _ (by simp [hkk]),
            ih, List.find?_cons_of_neg _ (by simp [hpk])]
          simp [hk]
      · have hhead : (if (p.1 == k) = true then (k, v) else p) = p := by
          simp [hp]
        by_cases hpk : p.1 = k'
        · have hk : ¬ k' = k := fun h => hp (hpk.trans h)
          simp only [pydictGet?, List.map_cons, hhead]
          rw [List.find?_cons_of_pos _ (by simp [hpk]),
            List.find?_cons_of_pos _ (by simp [hpk])]
          simp [hk]
        · simp only [pydictGet?, List.map_cons, hhead]
          rw [List.find?_cons_of_neg _ (by simp [hpk]), ih,
            List.find?_cons_of_neg _ (by simp [hpk])]
          by_cases hk : k' = k
          · subst hk
            have hfalse : (p.1 == k') = false := by simp [hp]
            rw [List.any_cons, hfalse, Bool.false_or]
          · simp [hk]

/-- Lookup in a Python dict after appending a genuinely new key. -/
theorem pydict_find?_append {α : Type} (k k' : Int) (v : α) :
    ∀ m : List (Int × α), m.any (fun p => p.1 == k) = false →
      pydictGet? (m ++ [(k, v)]) k'
        = if k' = k then some v else pydictGet? m k' := by
  intro m
  induction m with
  | nil =>
      intro _
      by_cases hk : k' = k
      · subst hk
        simp [pydictGet?]
      · have hkk : ¬ k = k' := fun h => hk h.symm
        simp [pydictGet?, hk, hkk]
  | cons p t ih =>
      intro hmem
      simp only [List.any_cons, Bool.or_eq_false_iff] at hmem
      have ht := ih hmem.2
      simp only [pydictGet?] at ht ⊢
      simp only [List.cons_append]
      by_cases hpk : p.1 = k'
      · have hk : ¬ k' = k := by
          intro h
          subst h
          have := hmem.1
          simp [hpk] at this
        rw [List.find?_cons_of_pos _ (by simp [hpk]),
          List.find?_cons_of_pos _ (by simp [hpk])]
        simp [hk]
      · rw [List.find?_cons_of_neg _ (by simp [hpk]), ht,
          List.find?_cons_of_neg _ (by simp [hpk])]

/-- Lookup after a single Python dict insertion: the inserted key now
maps to the new value, every other key is unaffected. -/
theorem pydictGet?_insert {α : Type} (m : List (Int × α)) (k k' : Int) (v : α) :
    pydictGet? (pydictInsert m k v) k'
      = if k' = k then some v else pydictGet? m k' := by
  unfold pydictInsert
  cases hmem : m.any (fun p => p.1 == k) with
  | true =>
      rw [if_pos rfl, pydict_find?_update, hmem]
      by_cases hk : k' = k <;> simp [hk]
  | false =>
      rw [if_neg (by simp), pydict_find?_append k k' v m hmem]

/-- Prepending to a non-empty list does not change its last element. -/
theorem getLast?_cons_of_ne_nil {α : Type} (a : α) (l : List α) (h : l ≠ []) :
    (a :: l).getLast? = l.getLast? := by
  cases l with
  | nil => exact absurd rfl h
  | cons b t => exact List.getLast?_cons_cons

/-- Folding Python dict insertions over a list: a key ends up mapped to
the value of its last occurrence, and keys never inserted keep their
prior binding. -/
theorem pydict_fold_get {α : Type} (l : List (Int × α)) :
    ∀ (m : List (Int × α)) (k : Int),
      pydictGet? (l.foldl (fun m p => pydictInsert m p.1 p.2) m) k
        = match (l.filter (fun p => p.1 == k)).getLast? with
          | some q => some q.2
          | none => pydictGet? m k := by
  induction l with
  | nil =>
      intro m k
      simp
  | cons p t ih =>
      intro m k
      rw [List.foldl_cons, ih]
      by_cases hp : p.1 = k
      · rw [List.filter_cons_of_pos (by simp [hp])]
        cases hft : t.filter (fun q => q.1 == k) with
        | nil =>
            simp [pydictGet?_insert, hp]
        | cons q ft =>
            rw [getLast?_cons_of_ne_nil p (q :: ft) (by simp)]
            cases hgl : (q :: ft).getLast? with
            | none =>
                rw [List.getLast?_eq_none_iff] at hgl
                exact absurd hgl (by simp)
            | some x => rfl
      · rw [List.filter_cons_of_neg (by simp [hp])]
        cases hft : t.filter (fun q => q.1 == k) with
        | nil =>
            have hkp : ¬ k = p.1 := fun h => hp h.symm
            simp [pydictGet?_insert, hkp]
        | cons q ft =>
            cases hgl : (q :: ft).getLast? with
            | none =>
                rw [List.getLast?_eq_none_iff] at hgl
                exact absurd hgl (by simp)
            | some x => rfl

/-- The dict built by a Python comprehension maps each key to the last
entry carrying it. -/
theorem pydictOf_get {α : Type} (l : List (Int × α)) (k : Int) :
    pydictGet? (pydictOf l) k
      = ((l.filter (fun p => p.1 == k)).getLast?).map Prod.snd := by
  have h := pydict_fold_get l [] k
  unfold pydictOf
  rw [h]
  cases hgl : (l.filter (fun p => p.1 == k)).getLast? <;> simp [pydictGet?]

/-- Keys after a Python dict insertion. -/
theorem pydict_keys_insert {α : Type} (m : List (Int × α)) (k : Int) (v : α) :
    (pydictInsert m k v).map Prod.fst
      = if m.any (fun p => p.1 == k) then m.map Prod.fst
        else m.map Prod.fst ++ [k] := by
  unfold pydictInsert
  cases hmem : m.any (fun p => p.1 == k) with
  | true =>
      rw [if_pos rfl, if_pos rfl, List.map_map]
      apply List.map_congr_left
      intro p _
      by_cases hp : p.1 = k
      · simp [hp]
      · simp [hp]
  | false =>
      rw [if_neg (by simp), if_neg (by simp), List.map_append]
      rfl

/-- Key membership after a Python dict insertion. -/
theorem pydict_mem_keys_insert {α : Type} (m : List (Int × α)) (k k' : Int)
    (v : α) :
    k' ∈ (pydictInsert m k v).map Prod.fst
      ↔ k' = k ∨ k' ∈ m.map Prod.fst := by
  rw [pydict_keys_insert]
  cases hmem : m.any (fun p => p.1 == k) with
  | true =>
      rw [if_pos rfl]
      constructor
      · exact Or.inr
      · rintro (rfl | h)
        · obtain ⟨p, hpm, hpk⟩ := List.any_eq_true.mp hmem
          exact List.mem_map.mpr ⟨p, hpm, by simpa using hpk⟩
        · exact h
  | false =>
      rw [if_neg (by simp)]
      simp [or_comm]

/-- Key membership through a fold of Python dict insertions. -/
theorem pydict_mem_keys_fold {α : Type} (l : List (Int × α)) :
    ∀ (m : List (Int × α)) (k : Int),
      k ∈ (l.foldl (fun m p => pydictInsert m p.1 p.2) m).map Prod.fst
        ↔ k ∈ m.map Prod.fst ∨ k ∈ l.map Prod.fst := by
  induction l with
  | nil =>
      intro m k
      simp
  | cons p t ih =>
      intro m k
      rw [List.foldl_cons, ih, pydict_mem_keys_insert]
      simp only [List.map_cons, List.mem_cons]
      tauto

/-- Folding Python dict insertions preserves key distinctness. -/
theorem pydict_nodup_keys_fold {α : Type} (l : List (Int × α)) :
    ∀ m : List (Int × α), (m.map Prod.fst).Nodup →
      ((l.foldl (fun m p => pydictInsert m p.1 p.2) m).map Prod.fst).Nodup := by
  induction l with
  | nil =>
      intro m h
      exact h
  | cons p t ih =>
      intro m h
      rw [List.foldl_cons]
      apply ih
      rw [pydict_keys_insert]
      cases hmem : m.any (fun q => q.1 == p.1) with
      | true => rwa [if_pos rfl]
      | false =>
          rw [if_neg (by simp)]
          have hk : p.1 ∉ m.map Prod.fst := by
            intro hmm
            obtain ⟨q, hqm, hq1⟩ := List.mem_map.mp hmm
            rw [List.any_eq_false] at hmem
            exact hmem q hqm (by simp [hq1])
          rw [List.nodup_append]
          refine ⟨h, List.nodup_singleton _, fun a ham hab => ?_⟩
          rw [List.mem_singleton] at hab
          exact hk (hab ▸ ham)

/-- A Python dict comprehension yields pairwise-distinct keys. -/
theorem pydictOf_keys_nodup {α : Type} (l : List (Int × α)) :
    ((pydictOf l).map Prod.fst).Nodup :=
  pydict_nodup_keys_fold l [] (by simp)

/-- The keys of a Python dict comprehension are exactly the keys
occurring in the backing sequence. -/
theorem pydictOf_mem_keys {α : Type} (l : List (Int × α)) (k : Int) :
    k ∈ (pydictOf l).map Prod.fst ↔ k ∈ l.map Prod.fst := by
  have h := pydict_mem_keys_fold l [] k
  unfold pydictOf
  rw [h]
  simp

/-- A rigid body with id 5 for the duplicate-id example. -/
def rbEx5 : Rigid_body := ⟨5, ⟨0, 0, 0⟩, ⟨0, 0, 0, 1⟩, 0, false⟩

/-- The first id-2 rigid body of the duplicate-id example. -/
def rbEx2a : Rigid_body := ⟨2, ⟨0, 0, 0⟩, ⟨0, 0, 0, 1⟩, 1, false⟩

/-- The second (later) id-2 rigid body of the duplicate-id example; it
differs from the first in its err/tracking fields. -/
def rbEx2b : Rigid_body := ⟨2, ⟨0, 0, 0⟩, ⟨0, 0, 0, 1⟩, 2, true⟩

/-- A rigid body with id 7 for the duplicate-id example. -/
def rbEx7 : Rigid_body := ⟨7, ⟨0, 0, 0⟩, ⟨0, 0, 0, 1⟩, 0, false⟩

/-- Claim C7: the id-keyed map a collection record's `__post_init__`
builds is derived from and consistent with its backing ordered
sequence: its keys are exactly the ids occurring in the sequence with
exactly one entry per distinct id, and each id maps to the last record
carrying it in sequence order (shown for `Rigid_body_data` and
`Labeled_marker_data`); concretely, ids [5,2,2,7] give a 3-entry map
whose entry for id 2 is the later id-2 record. -/
theorem id_map_consistency (n n2 : Int) (rbs : List Rigid_body)
    (ms : List Labeled_marker) (k : Int) :
    ((mkRigid_body_data n rbs).rigid_bodies_d.map Prod.fst).Nodup
    ∧ (k ∈ (mkRigid_body_data n rbs).rigid_bodies_d.map Prod.fst
        ↔ ∃ rb ∈ rbs, rb.id = k)
    ∧ pydictGet? (mkRigid_body_data n rbs).rigid_bodies_d k
        = (rbs.filter (fun rb => rb.id == k)).getLast?
    ∧ ((mkLabeled_marker_data n2 ms).markers_d.map Prod.fst).Nodup
    ∧ (k ∈ (mkLabeled_marker_data n2 ms).markers_d.map Prod.fst
        ↔ ∃ lm ∈ ms, lm.id = k)
    ∧ pydictGet? (mkLabeled_marker_data n2 ms).markers_d k
        = (ms.filter (fun lm => lm.id == k)).getLast?
    ∧ (mkRigid_body_data 4 [rbEx5, rbEx2a, rbEx2b, rbEx7]).rigid_bodies_d.length
        = 3
    ∧ pydictGet?
          (mkRigid_body_data 4 [rbEx5, rbEx2a, rbEx2b, rbEx7]).rigid_bodies_d 2
        = some rbEx2b := by
  refine ⟨?_, ?_, ?_, ?_, ?_, ?_, ?_, ?_⟩
  · exact pydictOf_keys_nodup _
  · have h := pydictOf_mem_keys (rbs.map (fun rb => (rb.id, rb))) k
    rw [show (mkRigid_body_data n rbs).rigid_bodies_d
        = pydictOf (rbs.map (fun rb => (rb.id, rb))) from rfl, h]
    simp [List.mem_map]
  · have h := pydictOf_get (rbs.map (fun rb => (rb.id, rb))) k
    rw [List.filter_map, List.getLast?_map] at h
    rw [show (mkRigid_body_data n rbs).rigid_bodies_d
        = pydictOf (rbs.map (fun rb => (rb.id, rb))) from rfl, h]
    have hpred : ((fun p : Int × Rigid_body => p.1 == k) ∘ fun rb => (rb.id, rb))
        = fun rb => rb.id == k := rfl
    rw [hpred]
    cases hgl : (rbs.filter (fun rb => rb.id == k)).getLast? with
    | none => rfl
    | some x => rfl
  · exact pydictOf_keys_nodup _
  · have h := pydictOf_mem_keys (ms.map (fun lm => (lm.id, lm))) k
    rw [show (mkLabeled_marker_data n2 ms).markers_d
        = pydictOf (ms.map (fun lm => (lm.id, lm))) from rfl, h]
    simp [List.mem_map]
  · have h := pydictOf_get (ms.map (fun lm => (lm.id, lm))) k
    rw [List.filter_map, List.getLast?_map] at h
    rw [show (mkLabeled_marker_data n2 ms).markers_d
        = pydictOf (ms.map (fun lm => (lm.id, lm))) from rfl, h]
    have hpred : ((fun p : Int × Labeled_marker => p.1 == k) ∘ fun lm => (lm.id, lm))
        = fun lm => lm.id == k := rfl
    rw [hpred]
    cases hgl : (ms.filter (fun lm => lm.id == k)).getLast? with
    | none => rfl
    | some x => rfl
  · rfl
  · rfl

end NatNet







